import Mathlib

/-!
Shallow embedding of the pulse-backend ticket workflow core:
the email dispatch engine (emailController.js) and the ticket lifecycle
controller (ticketController.js) together with the express-validator
validation chains wired in the ticket routes.

The external mail gateway and the SOAP client are modelled as oracles:
a transport is a function from the email data (or from the attempt
number, for the per-attempt retry loops) to `Except String Unit`, where
`Except.error m` models a thrown JS `Error` with message `m`.
The relational store is modelled as an explicit `DBState` value and each
SQL statement as the corresponding pure transformation; `GETDATE()` is a
`now : Nat` parameter.
-/

namespace Pulse

/-- A transport oracle: outcome of one complete `sendEmail` pipeline for
given (toAddr, subject, body). `Except.error m` models a thrown error. -/
abbrev Transport := String → String → String → Except String Unit

/-- Boolean success test on `Except`. -/
def exOk : Except String Unit → Bool
  | Except.ok _ => true
  | Except.error _ => false

/-- `s.includes(pat)` of JS: `pat` occurs as a substring of `s`
(for a nonempty pattern, `splitOn` yields more than one piece iff the
pattern occurs). -/
def containsSub (s pat : String) : Bool :=
  1 < (s.splitOn pat).length

/-- Configuration defaults of emailController.js (environment overrides
not modelled; these are the documented defaults). -/
def EMAIL_MAX_RETRIES : Nat := 3

def EMAIL_RETRY_DELAY : Nat := 2000

def DIGITAL_TEAM_EMAIL : String := "BodylineDigitalExcellence@masholdings.com"

def MANAGER_EMAIL : String := "gayankar@masholdings.com"

/-- One email as handed to the gateway (`toAddr` models the JS field
named `to`, renamed because `to` is reserved here). -/
structure EmailData where
  toAddr : String
  subject : String
  body : String
deriving Repr, DecidableEq

/-- `createSoapClientWithRetry` loop body (emailController.js lines 54-118).
`attempt` is the 1-based attempt counter, the second argument the number of
attempts still allowed. Returns the outcome together with the list of
backoff delays slept (in ms): after a failed attempt that is not the last,
the code sleeps `EMAIL_RETRY_DELAY * 2 ^ (attempt - 1)`; after the last
failed attempt it throws with no further delay. -/
def connectGo (outcome : Nat → Except String Unit) (baseDelay : Nat) :
    Nat → Nat → Except String Unit × List Nat
  | _, 0 => (Except.error "no attempts", [])
  | attempt, Nat.succ rest =>
    match outcome attempt with
    | Except.ok u => (Except.ok u, [])
    | Except.error m =>
      if rest = 0 then
        (Except.error ("Failed to create SOAP client after " ++ toString attempt
          ++ " attempts: " ++ m), [])
      else
        let delay := baseDelay * 2 ^ (attempt - 1)
        let (res, ds) := connectGo outcome baseDelay (attempt + 1) rest
        (res, delay :: ds)

/-- `createSoapClientWithRetry(url, retries)`: runs the attempt loop from
attempt 1. -/
def createSoapClientWithRetry (outcome : Nat → Except String Unit)
    (retries : Nat) (baseDelay : Nat) : Except String Unit × List Nat :=
  connectGo outcome baseDelay 1 retries

/-- `sendEmailWithRetry` loop (emailController.js lines 123-173): up to
`retries` attempts (default 2), linear backoff `3000 * attempt` between
attempts, rethrows the last error with no further delay. -/
def sendGo (outcome : Nat → Except String Unit) :
    Nat → Nat → Except String Unit × List Nat
  | _, 0 => (Except.error "no attempts", [])
  | attempt, Nat.succ rest =>
    match outcome attempt with
    | Except.ok u => (Except.ok u, [])
    | Except.error m =>
      if rest = 0 then (Except.error m, [])
      else
        let (res, ds) := sendGo outcome (attempt + 1) rest
        (res, (3000 * attempt) :: ds)

def sendEmailWithRetry (outcome : Nat → Except String Unit) (retries : Nat) :
    Except String Unit × List Nat :=
  sendGo outcome 1 retries

/-- Error-message classification of `sendEmail`'s catch block
(emailController.js lines 233-246). -/
def classifyEmailError (m : String) : String :=
  if containsSub m "timeout" || containsSub m "ETIMEDOUT" then
    "Email service timeout - this may be due to Azure network restrictions. Please check the email service availability."
  else if containsSub m "ECONNREFUSED" || containsSub m "ENOTFOUND" then
    "Cannot connect to email service - please verify the service URL and network connectivity."
  else if containsSub m "ECONNRESET" then
    "Connection reset by email service - this may be due to Azure SNAT port limitations."
  else if containsSub m "getaddrinfo" then
    "DNS resolution failed - unable to resolve email service hostname."
  else if containsSub m "httpClient.request is not a function" then
    "SOAP client configuration error - HTTP client incompatibility in Azure environment."
  else m

/-- `sendEmail(toAddr, subject, body)` (emailController.js lines 178-259):
create the SOAP client with retry, then send with retry; any error is
caught, classified to a diagnostic message, and rethrown
(`Except.error`). The `finally` client cleanup has no observable effect
in this model. `connect`/`send` are the per-attempt oracles of the two
retry loops. -/
def sendEmail (connect send : Nat → Except String Unit) : Except String Unit :=
  match (createSoapClientWithRetry connect EMAIL_MAX_RETRIES EMAIL_RETRY_DELAY).1 with
  | Except.error m => Except.error (classifyEmailError m)
  | Except.ok _ =>
    match (sendEmailWithRetry send 2).1 with
    | Except.ok u => Except.ok u
    | Except.error m => Except.error (classifyEmailError m)

/-- Result record of `safeEmailSend` ({success, error?}). -/
structure SafeSendResult where
  success : Bool
  error : Option String
deriving Repr, DecidableEq

/-- `safeEmailSend` (emailController.js lines 351-369): call the email
function; on success return `{success: true}`, on a thrown error return
`{success: false, error: message}` — never rethrow. -/
def safeEmailSend (f : Transport) (toAddr subject body : String) : SafeSendResult :=
  match f toAddr subject body with
  | Except.ok _ => { success := true, error := none }
  | Except.error m => { success := false, error := some m }

/-- One per-recipient entry of the `results` array of `sendEmailWithCC`. -/
structure RecipientResult where
  recipient : String
  rtype : String
  success : Bool
  error : Option String
deriving Repr, DecidableEq

/-- The `summary` object of the dispatch result. -/
structure DispatchSummary where
  total : Nat
  successful : Nat
  failed : Nat
deriving Repr, DecidableEq

/-- The aggregated return value of `sendEmailWithCC`. -/
structure DispatchResult where
  success : Bool
  results : List RecipientResult
  summary : DispatchSummary
deriving Repr, DecidableEq

/-- The derivative body for a CC copy (emailController.js lines 294-299):
a copy banner naming the primary recipient, followed by the body. -/
def ccBodyFor (toAddr body : String) : String :=
  "\n          <div style=\"background-color: #e3f2fd; padding: 15px; margin-bottom: 20px; border-left: 4px solid #2196f3; border-radius: 4px;\">\n            <p style=\"margin: 0; font-weight: bold; color: #1976d2;\">📋 This is a copy of the email sent to: "
    ++ toAddr
    ++ "</p>\n          </div>\n          "
    ++ body
    ++ "\n        "

/-- CC loop of `sendEmailWithCC` (emailController.js lines 282-312): for
each CC recipient, skip it when it equals the primary recipient
(case-sensitive `===`), otherwise send the derivative copy through
`safeEmailSend` and record the outcome. Also returns the trace of emails
actually handed to `safeEmailSend` (ghost instrumentation; the 1s
inter-send delay has no observable effect on the data). -/
def ccSends (f : Transport) (toAddr subject body : String) :
    List String → List RecipientResult × List EmailData
  | [] => ([], [])
  | c :: rest =>
    if c = toAddr then ccSends f toAddr subject body rest
    else
      let r := safeEmailSend f c ("[COPY] " ++ subject) (ccBodyFor toAddr body)
      let (rs, tr) := ccSends f toAddr subject body rest
      (⟨c, "cc", r.success, r.error⟩ :: rs,
        ⟨c, "[COPY] " ++ subject, ccBodyFor toAddr body⟩ :: tr)

/-- `sendEmailWithCC` (emailController.js lines 264-346), instrumented
with the trace of performed sends. The primary email is sent first via
`safeEmailSend`, then the CC loop runs; overall success is
`successCount > 0`. The catch branch of the source cannot run in this
model because every send is wrapped in `safeEmailSend` and the remaining
statements are pure. -/
def sendEmailWithCCTraced (f : Transport) (toAddr : String) (ccList : List String)
    (subject body : String) : DispatchResult × List EmailData :=
  let pr := safeEmailSend f toAddr subject body
  let primary : RecipientResult := ⟨toAddr, "primary", pr.success, pr.error⟩
  let (ccResults, ccTrace) := ccSends f toAddr subject body ccList
  let results := primary :: ccResults
  let successCount := (results.filter (fun r => r.success)).length
  let totalCount := results.length
  ({ success := decide (0 < successCount)
     results := results
     summary :=
      { total := totalCount
        successful := successCount
        failed := totalCount - successCount } },
   ⟨toAddr, subject, body⟩ :: ccTrace)

/-- `sendEmailWithCC` as the callers see it (without the ghost trace). -/
def sendEmailWithCC (f : Transport) (toAddr : String) (ccList : List String)
    (subject body : String) : DispatchResult :=
  (sendEmailWithCCTraced f toAddr ccList subject body).1

end Pulse


namespace Pulse

/-- Frontend URL default (emailController.js line 9). -/
def SYSTEM_URL : String :=
  "https://sg-prod-bdyapp-pulsefrontend-g9aqfserb6bea8eq.southeastasia-01.azurewebsites.net/"

/-- The ticket snapshot handed to the notify functions (JS `ticketData`;
`ttype` models the JS field named `type`). Callers fill only some
fields; unused fields are carried as empty strings by those callers. -/
structure TicketData where
  id : Nat
  ticket_number : String
  title : String
  description : String
  ttype : String
  urgency : String
  status : String
  created_by_email : String
deriving Repr, DecidableEq

/-- The user snapshot handed to the notify functions (JS `userData`,
`updatedByUser`, `createdByUser`). `role` is `none` when the caller does
not pass it (as createTicket does not). -/
structure UserData where
  name : String
  email : String
  role : Option String
deriving Repr, DecidableEq

/-- Body template of `notifyTicketCreated` (emailController.js lines
389-428), with the JS interpolations spliced in by concatenation. -/
def bodyTicketCreated (t : TicketData) (u : UserData) : String :=
  "\n    <div style=\"font-family: Arial, sans-serif; max-width: 600px; margin: 0 auto;\">\n      <h2 style=\"color: #333; border-bottom: 2px solid #007bff; padding-bottom: 10px;\">\n        🎫 New Support Ticket Created\n      </h2>\n      \n      <div style=\"background-color: #f8f9fa; padding: 20px; border-radius: 8px; margin: 20px 0;\">\n        <h3 style=\"color: #495057; margin-top: 0;\">Ticket Details</h3>\n        <p><strong>Ticket Number:</strong> "
    ++ t.ticket_number
    ++ "</p>\n        <p><strong>Title:</strong> " ++ t.title
    ++ "</p>\n        <p><strong>Type:</strong> " ++ t.ttype
    ++ "</p>\n        <p><strong>Urgency:</strong> " ++ t.urgency
    ++ "</p>\n        <p><strong>Status:</strong> " ++ t.status
    ++ "</p>\n      </div>\n      \n      <div style=\"background-color: #e9f7ef; padding: 20px; border-radius: 8px; margin: 20px 0;\">\n        <h3 style=\"color: #495057; margin-top: 0;\">Submitted By</h3>\n        <p><strong>Name:</strong> "
    ++ u.name
    ++ "</p>\n        <p><strong>Email:</strong> " ++ u.email
    ++ "</p>\n        <p><strong>Role:</strong> " ++ (u.role.getD "User")
    ++ "</p>\n      </div>\n      \n      <div style=\"background-color: #fff3cd; padding: 20px; border-radius: 8px; margin: 20px 0;\">\n        <h3 style=\"color: #495057; margin-top: 0;\">Description</h3>\n        <p style=\"white-space: pre-wrap;\">"
    ++ t.description
    ++ "</p>\n      </div>\n      \n      <div style=\"text-align: center; margin: 30px 0;\">\n        <a href=\""
    ++ SYSTEM_URL
    ++ "\" \n           style=\"background-color: #007bff; color: white; padding: 12px 30px; \n                  text-decoration: none; border-radius: 5px; display: inline-block;\">\n          🔗 Access Support System\n        </a>\n      </div>\n      \n      <p style=\"color: #6c757d; font-size: 14px; text-align: center; margin-top: 40px;\">\n        This is an automated notification from the Support Ticket System\n      </p>\n    </div>\n  "

/-- `notifyTicketCreated` (emailController.js lines 374-452): subject is
built from the ticket number; the creator is CC-ed unless their role is
digital_team or manager (an absent role passes the check, as in JS where
`undefined !== 'digital_team'`); primary recipient is the digital-team
address; the dispatch result is returned unchanged. -/
def notifyTicketCreated (f : Transport) (t : TicketData) (u : UserData) :
    DispatchResult :=
  let subject := "New Support Ticket Created - " ++ t.ticket_number
  let body := bodyTicketCreated t u
  let ccList :=
    if u.role ≠ some "digital_team" ∧ u.role ≠ some "manager" then [u.email] else []
  sendEmailWithCC f DIGITAL_TEAM_EMAIL ccList subject body

/-- Body template of `notifyTicketUpdated` (emailController.js lines
472-506). -/
def bodyTicketUpdated (t : TicketData) (remark newStatus : String)
    (u : UserData) : String :=
  "\n    <div style=\"font-family: Arial, sans-serif; max-width: 600px; margin: 0 auto;\">\n      <h2 style=\"color: #333; border-bottom: 2px solid #28a745; padding-bottom: 10px;\">\n        📝 Ticket Status Updated\n      </h2>\n      \n      <div style=\"background-color: #f8f9fa; padding: 20px; border-radius: 8px; margin: 20px 0;\">\n        <h3 style=\"color: #495057; margin-top: 0;\">Ticket Information</h3>\n        <p><strong>Ticket Number:</strong> "
    ++ t.ticket_number
    ++ "</p>\n        <p><strong>Title:</strong> " ++ t.title
    ++ "</p>\n        <p><strong>New Status:</strong> <span style=\"color: #28a745; font-weight: bold;\">"
    ++ newStatus
    ++ "</span></p>\n      </div>\n      \n      <div style=\"background-color: #e3f2fd; padding: 20px; border-radius: 8px; margin: 20px 0;\">\n        <h3 style=\"color: #495057; margin-top: 0;\">Update Details</h3>\n        <p><strong>Updated by:</strong> "
    ++ u.name
    ++ "</p>\n        <p><strong>Remarks:</strong></p>\n        <div style=\"background-color: white; padding: 15px; border-left: 4px solid #007bff; margin-top: 10px;\">\n          <p style=\"white-space: pre-wrap; margin: 0;\">"
    ++ remark
    ++ "</p>\n        </div>\n      </div>\n      \n      <div style=\"text-align: center; margin: 30px 0;\">\n        <a href=\""
    ++ SYSTEM_URL ++ "/tickets/" ++ toString t.id
    ++ "\" \n           style=\"background-color: #28a745; color: white; padding: 12px 30px; \n                  text-decoration: none; border-radius: 5px; display: inline-block;\">\n          🔗 View Ticket Details\n        </a>\n      </div>\n      \n      <p style=\"color: #6c757d; font-size: 14px; text-align: center; margin-top: 40px;\">\n        This is an automated notification from the Support Ticket System\n      </p>\n    </div>\n  "

/-- `notifyTicketUpdated` (emailController.js lines 457-528): primary is
the ticket creator; the updating actor is CC-ed when their email is
non-empty (JS truthiness) and differs from the creator's. -/
def notifyTicketUpdated (f : Transport) (t : TicketData)
    (remark newStatus : String) (updatedByUser : UserData) : DispatchResult :=
  let subject := "Ticket Update - " ++ t.ticket_number
  let body := bodyTicketUpdated t remark newStatus updatedByUser
  let ccList :=
    if updatedByUser.email ≠ "" ∧ updatedByUser.email ≠ t.created_by_email then
      [updatedByUser.email]
    else []
  sendEmailWithCC f t.created_by_email ccList subject body

/-- Body template of `notifyManagerApproval` (emailController.js lines
547-591). -/
def bodyManagerApproval (t : TicketData) (u : UserData) : String :=
  "\n    <div style=\"font-family: Arial, sans-serif; max-width: 600px; margin: 0 auto;\">\n      <h2 style=\"color: #333; border-bottom: 2px solid #ffc107; padding-bottom: 10px;\">\n        ⚠️ Manager Approval Required\n      </h2>\n      \n      <div style=\"background-color: #fff3cd; padding: 20px; border-radius: 8px; margin: 20px 0;\">\n        <h3 style=\"color: #856404; margin-top: 0;\">🔍 Action Required</h3>\n        <p>A digital team member has created a support ticket that requires your approval before it can be processed.</p>\n      </div>\n      \n      <div style=\"background-color: #f8f9fa; padding: 20px; border-radius: 8px; margin: 20px 0;\">\n        <h3 style=\"color: #495057; margin-top: 0;\">Ticket Details</h3>\n        <p><strong>Ticket Number:</strong> "
    ++ t.ticket_number
    ++ "</p>\n        <p><strong>Title:</strong> " ++ t.title
    ++ "</p>\n        <p><strong>Type:</strong> " ++ t.ttype
    ++ "</p>\n        <p><strong>Urgency:</strong> " ++ t.urgency
    ++ "</p>\n        <p><strong>Status:</strong> <span style=\"color: #ffc107; font-weight: bold;\">Pending Approval</span></p>\n      </div>\n      \n      <div style=\"background-color: #e9f7ef; padding: 20px; border-radius: 8px; margin: 20px 0;\">\n        <h3 style=\"color: #495057; margin-top: 0;\">Created By</h3>\n        <p><strong>Name:</strong> "
    ++ u.name
    ++ "</p>\n        <p><strong>Email:</strong> " ++ u.email
    ++ "</p>\n        <p><strong>Role:</strong> Digital Team Member</p>\n      </div>\n      \n      <div style=\"background-color: #fff3cd; padding: 20px; border-radius: 8px; margin: 20px 0;\">\n        <h3 style=\"color: #495057; margin-top: 0;\">Description</h3>\n        <p style=\"white-space: pre-wrap;\">"
    ++ t.description
    ++ "</p>\n      </div>\n      \n      <div style=\"text-align: center; margin: 30px 0;\">\n        <a href=\""
    ++ SYSTEM_URL ++ "/tickets/" ++ toString t.id
    ++ "\" \n           style=\"background-color: #ffc107; color: #212529; padding: 12px 30px; \n                  text-decoration: none; border-radius: 5px; display: inline-block; font-weight: bold;\">\n          🔗 Review & Approve Ticket\n        </a>\n      </div>\n      \n      <p style=\"color: #6c757d; font-size: 14px; text-align: center; margin-top: 40px;\">\n        Please review and approve this ticket to allow the digital team to proceed with the request.\n      </p>\n    </div>\n  "

/-- `notifyManagerApproval` (emailController.js lines 533-614): primary
is the fixed manager address; the creator is CC-ed when their email is
non-empty (JS truthiness). -/
def notifyManagerApproval (f : Transport) (t : TicketData) (u : UserData) :
    DispatchResult :=
  let subject := "Manager Approval Required - " ++ t.ticket_number
  let body := bodyManagerApproval t u
  let ccList := if u.email ≠ "" then [u.email] else []
  sendEmailWithCC f MANAGER_EMAIL ccList subject body

end Pulse

namespace Pulse

/-- One row of the Tickets table, restricted to the columns the modelled
operations read or write (`ttype` models the column named `type`).
Timestamp columns are `Option Nat`, `none` meaning SQL NULL; `GETDATE()`
is the `now` argument of each operation. -/
structure Ticket where
  id : Nat
  ticket_number : String
  title : String
  description : String
  ttype : String
  urgency : String
  status : String
  requires_manager_approval : Bool
  created_by : Nat
  created_by_email : String
  remark : Option String
  assigned_to : Option Nat
  approved_by : Option Nat
  approved_at : Option Nat
  rejected_by : Option Nat
  rejected_at : Option Nat
  resolved_at : Option Nat
  updated_at : Option Nat
deriving Repr, DecidableEq

/-- One row of the TicketHistory table (the audit ledger). -/
structure HistoryEntry where
  ticket_id : Nat
  changed_by : Nat
  field_name : String
  old_value : Option String
  new_value : Option String
  change_reason : String
deriving Repr, DecidableEq

/-- The relational store: the Tickets and TicketHistory tables. -/
structure DBState where
  tickets : List Ticket
  history : List HistoryEntry
deriving Repr, DecidableEq

/-- An HTTP outcome as produced by `sendResponse` (ok) / `sendError`
(err) with its status code and message. -/
inductive ApiResponse where
  | ok (code : Nat) (message : String)
  | err (code : Nat) (message : String)
deriving Repr, DecidableEq

/-- The authenticated request user (`req.user`). -/
structure ReqUser where
  id : Nat
  name : String
  email : String
  role : String
deriving Repr, DecidableEq

/-- `logTicketHistory` (ticketController.js lines 432-450): one INSERT
into TicketHistory inside its own try/catch; a failed insert is logged
and swallowed, never rethrown and never retried. `ins` is the insert
outcome oracle; the returned `Nat` counts the insert attempts made
(always exactly one). -/
def logTicketHistory (ins : Except String Unit) (db : DBState)
    (e : HistoryEntry) : DBState × Nat :=
  match ins with
  | Except.ok _ => ({ db with history := db.history ++ [e] }, 1)
  | Except.error _ => (db, 1)

/-- The six status values named by the specification. -/
def definedStatuses : List String :=
  ["Pending Approval", "Open", "In Progress", "Resolved", "Closed", "Rejected"]

/-- The Tickets row the INSERT of `createTicket` produces
(ticketController.js lines 27-61): the creator's role alone decides the
approval flag (digital_team or admin) and with it the initial status. -/
def insertedTicket (user : ReqUser) (newId : Nat)
    (ticketNumber title description ttype urgency : String) : Ticket :=
  let requiresApproval := user.role == "digital_team" || user.role == "admin"
  let status := if requiresApproval then "Pending Approval" else "Open"
  { id := newId, ticket_number := ticketNumber, title := title,
    description := description, ttype := ttype, urgency := urgency,
    status := status, requires_manager_approval := requiresApproval,
    created_by := user.id, created_by_email := user.email,
    remark := none, assigned_to := none, approved_by := none,
    approved_at := none, rejected_by := none, rejected_at := none,
    resolved_at := none, updated_at := none }

/-- `createTicket` (ticketController.js lines 9-111): the creator's role
decides `requires_manager_approval` (digital_team or admin) and the
initial status; the row is inserted, one history entry "Ticket created"
is logged (failure swallowed by `logTicketHistory`), and the matching
notification is attempted inside a try/catch whose result never reaches
the response; the response is always 201. `newId` stands for the
identity value the INSERT returns; `ins` is the audit-insert outcome. -/
def createTicket (f : Transport) (ins : Except String Unit) (db : DBState)
    (user : ReqUser) (newId : Nat) (ticketNumber title description ttype urgency : String) :
    DBState × ApiResponse :=
  let requiresApproval := user.role == "digital_team" || user.role == "admin"
  let status := if requiresApproval then "Pending Approval" else "Open"
  let newTicket : Ticket := insertedTicket user newId ticketNumber title description ttype urgency
  let db1 : DBState := { db with tickets := db.tickets ++ [newTicket] }
  let (db2, _) := logTicketHistory ins db1
    ⟨newId, user.id, "status", none, some status, "Ticket created"⟩
  let ticketData : TicketData :=
    { id := newId, ticket_number := ticketNumber, title := title,
      description := description, ttype := ttype, urgency := urgency,
      status := status, created_by_email := "" }
  let userData : UserData := { name := user.name, email := user.email, role := none }
  let _ :=
    if requiresApproval then notifyManagerApproval f ticketData userData
    else notifyTicketCreated f ticketData userData
  (db2, ApiResponse.ok 201 "Ticket created successfully")

/-- The row transformation of the UPDATE in `updateTicketStatus`
(ticketController.js lines 338-351): set status and `updated_at`,
optionally `assigned_to`, and `resolved_at` when the new status is
Resolved. -/
def updateStatusRow (t : Ticket) (status : String) (assignedTo : Option Nat)
    (now : Nat) : Ticket :=
  let t1 := { t with status := status, updated_at := some now }
  let t2 :=
    match assignedTo with
    | some a => { t1 with assigned_to := some a }
    | none => t1
  if status = "Resolved" then { t2 with resolved_at := some now } else t2

/-- `updateTicketStatus` (ticketController.js lines 327-373): an
unconditional UPDATE on the ticket id (no status precondition); zero
affected rows yields 404; otherwise one history entry for the status
and, when an assignee was passed, a second one for the assignment. -/
def updateTicketStatus (ins : Nat → Except String Unit) (db : DBState)
    (user : ReqUser) (ticketId : Nat) (status : String) (assignedTo : Option Nat)
    (now : Nat) : DBState × ApiResponse :=
  let affected := (db.tickets.filter (fun t => t.id == ticketId)).length
  if affected = 0 then (db, ApiResponse.err 404 "Ticket not found")
  else
    let ts := db.tickets.map
      (fun t => if t.id == ticketId then updateStatusRow t status assignedTo now else t)
    let db1 : DBState := { db with tickets := ts }
    let (db2, _) := logTicketHistory (ins 0) db1
      ⟨ticketId, user.id, "status", none, some status, "Status updated"⟩
    let db3 :=
      match assignedTo with
      | some a =>
        (logTicketHistory (ins 1) db2
          ⟨ticketId, user.id, "assigned_to", none, some (toString a), "Ticket assigned"⟩).1
      | none => db2
    (db3, ApiResponse.ok 200 "Ticket status updated successfully")

/-- The row transformation of the UPDATE in `addTicketRemark`
(ticketController.js lines 148-157): set remark, status and
`updated_at`, plus `resolved_at` when the new status is Resolved. -/
def remarkRow (t : Ticket) (remark status : String) (now : Nat) : Ticket :=
  let t1 := { t with remark := some remark, status := status, updated_at := some now }
  if status = "Resolved" then { t1 with resolved_at := some now } else t1

/-- `addTicketRemark` (ticketController.js lines 116-198): look the
ticket up (404 when missing), apply the remark/status UPDATE with no
condition on the current status and no restriction on the status value,
write two history entries, attempt the update notification (failure
swallowed), respond 200. -/
def addTicketRemark (f : Transport) (ins : Nat → Except String Unit)
    (db : DBState) (user : ReqUser) (ticketId : Nat) (remark status : String)
    (now : Nat) : DBState × ApiResponse :=
  match db.tickets.find? (fun t => t.id == ticketId) with
  | none => (db, ApiResponse.err 404 "Ticket not found")
  | some ticketData =>
    let ts := db.tickets.map
      (fun t => if t.id == ticketId then remarkRow t remark status now else t)
    let db1 : DBState := { db with tickets := ts }
    let (db2, _) := logTicketHistory (ins 0) db1
      ⟨ticketId, user.id, "remark", none, some remark, "Remark added"⟩
    let (db3, _) := logTicketHistory (ins 1) db2
      ⟨ticketId, user.id, "status", none, some status, "Status updated with remark"⟩
    let notificationData : TicketData :=
      { id := ticketId, ticket_number := ticketData.ticket_number,
        title := ticketData.title, description := "", ttype := "",
        urgency := "", status := "",
        created_by_email := ticketData.created_by_email }
    let updatedByUser : UserData :=
      { name := user.name, email := user.email, role := none }
    let _ := notifyTicketUpdated f notificationData remark status updatedByUser
    (db3, ApiResponse.ok 200 "Remark added successfully")

/-- The WHERE clause of the conditional UPDATE in `approveTicket` and
`rejectTicket`: the row matches only when the id matches, the ticket
requires manager approval, and its status is exactly Pending Approval. -/
def approvalMatches (t : Ticket) (ticketId : Nat) : Bool :=
  t.id == ticketId && t.requires_manager_approval && t.status == "Pending Approval"

/-- `approveTicket` (ticketController.js lines 375-404): conditional
UPDATE to Open with approver and approval timestamp; zero affected rows
yields the 404 "not found or not pending approval" error with no
mutation and no history write; otherwise one history entry. -/
def approveTicket (ins : Except String Unit) (db : DBState) (user : ReqUser)
    (ticketId : Nat) (now : Nat) : DBState × ApiResponse :=
  let affected := (db.tickets.filter (fun t => approvalMatches t ticketId)).length
  if affected = 0 then (db, ApiResponse.err 404 "Ticket not found or not pending approval")
  else
    let ts := db.tickets.map
      (fun t => if approvalMatches t ticketId then
          { t with status := "Open", approved_by := some user.id, approved_at := some now }
        else t)
    let db1 : DBState := { db with tickets := ts }
    let (db2, _) := logTicketHistory ins db1
      ⟨ticketId, user.id, "status", some "Pending Approval", some "Open", "Ticket approved"⟩
    (db2, ApiResponse.ok 200 "Ticket approved successfully")

/-- `rejectTicket` (ticketController.js lines 454-483): conditional
UPDATE to Rejected with rejecter, rejection timestamp and `updated_at`;
zero affected rows yields the same 404 error with no mutation and no
history write; otherwise one history entry. -/
def rejectTicket (ins : Except String Unit) (db : DBState) (user : ReqUser)
    (ticketId : Nat) (now : Nat) : DBState × ApiResponse :=
  let affected := (db.tickets.filter (fun t => approvalMatches t ticketId)).length
  if affected = 0 then (db, ApiResponse.err 404 "Ticket not found or not pending approval")
  else
    let ts := db.tickets.map
      (fun t => if approvalMatches t ticketId then
          { t with status := "Rejected", rejected_by := some user.id, rejected_at := some now, updated_at := some now }
        else t)
    let db1 : DBState := { db with tickets := ts }
    let (db2, _) := logTicketHistory ins db1
      ⟨ticketId, user.id, "status", some "Pending Approval", some "Rejected",
        "Ticket rejected by manager"⟩
    (db2, ApiResponse.ok 200 "Ticket rejected successfully")

/-- The status whitelist of `validateUpdateTicketStatus`
(validation middleware, `isIn([...])`): note it does NOT include
Rejected, and it is applied only on the `/:id/status` route. -/
def allowedUpdateStatuses : List String :=
  ["Open", "In Progress", "Pending Approval", "Resolved", "Closed"]

/-- PUT `/:id/status` route (ticketRoutes.js lines 56-61): the
`validateUpdateTicketStatus` chain checks the id is a positive integer
and the status is in the whitelist, then `updateTicketStatus` runs. -/
def updateStatusRoute (ins : Nat → Except String Unit) (db : DBState)
    (user : ReqUser) (ticketId : Nat) (status : String) (assignedTo : Option Nat)
    (now : Nat) : DBState × ApiResponse :=
  if 1 ≤ ticketId ∧ allowedUpdateStatuses.contains status then
    updateTicketStatus ins db user ticketId status assignedTo now
  else (db, ApiResponse.err 400 "Validation failed")

/-- PUT `/:id/remark` route (ticketRoutes.js lines 68-74): only
`validateTicketId` (positive integer id) and `validateTicketRemark`
run before `addTicketRemark`; the latter rejects a missing or blank
remark (the JS test `!remark || remark.trim() === ''`, modelled as the
remark consisting solely of whitespace). The status field of the body
is passed through with NO validation. -/
def remarkRoute (f : Transport) (ins : Nat → Except String Unit) (db : DBState)
    (user : ReqUser) (ticketId : Nat) (remark status : String) (now : Nat) :
    DBState × ApiResponse :=
  if 1 ≤ ticketId then
    if remark.data.all (fun c => c.isWhitespace) then
      (db, ApiResponse.err 400 "Remark is required")
    else addTicketRemark f ins db user ticketId remark status now
  else (db, ApiResponse.err 400 "Validation failed")

end Pulse



namespace Pulse

/-! Concrete sample data used to evaluate the definitions at specific
inputs. -/

/-- An audit insert that succeeds. -/
def okIns : Except String Unit := Except.ok ()

/-- A transport for which every send succeeds. -/
def okTransport : Transport := fun _ _ _ => Except.ok ()

/-- A transport for which every send throws with message `m`. -/
def failTransport (m : String) : Transport := fun _ _ _ => Except.error m

/-- A per-attempt oracle that fails every attempt. -/
def failAllAttempts : Nat → Except String Unit := fun _ => Except.error "ECONNREFUSED"

/-- A transport under which sends to alice fail through the full
`sendEmail` retry pipeline (SOAP client creation times out on every
attempt) while sends to anyone else succeed. -/
def aliceDownTransport : Transport := fun r _ _ =>
  if r = "alice@x.com" then
    sendEmail (fun _ => Except.error "ETIMEDOUT") (fun _ => Except.ok ())
  else Except.ok ()

def genUser : ReqUser := ⟨7, "Gen", "gen@x.com", "general_user"⟩

def adminUser : ReqUser := ⟨2, "Admin", "admin@x.com", "admin"⟩

def mgrUser : ReqUser := ⟨3, "Mgr", "mgr@x.com", "manager"⟩

/-- A ticket in status Open (created by a general user, no approval
flag). -/
def tOpen : Ticket :=
  { id := 1, ticket_number := "TK000000010001", title := "Printer broken",
    description := "The office printer is broken", ttype := "Support",
    urgency := "High", status := "Open", requires_manager_approval := false,
    created_by := 7, created_by_email := "gen@x.com", remark := none,
    assigned_to := none, approved_by := none, approved_at := none,
    rejected_by := none, rejected_at := none, resolved_at := none,
    updated_at := none }

def dbOpen : DBState := ⟨[tOpen], []⟩

/-- A ticket already rejected by a manager. -/
def tRejected : Ticket :=
  { tOpen with status := "Rejected", requires_manager_approval := true, rejected_by := some 3, rejected_at := some 3 }

def dbRejected : DBState := ⟨[tRejected], []⟩

/-- A ticket whose status is Pending Approval but whose
`requires_manager_approval` flag is 0. -/
def tPendingNoFlag : Ticket := { tOpen with status := "Pending Approval" }

def dbPendingNoFlag : DBState := ⟨[tPendingNoFlag], []⟩

/-- A sample audit entry. -/
def sampleEntry : HistoryEntry := ⟨1, 7, "status", none, some "Open", "Ticket created"⟩

/-! Helper lemmas shared between the claim theorems. -/

/-- `logTicketHistory` never changes the Tickets table, whatever the
insert outcome. -/
theorem logTicketHistory_tickets (ins : Except String Unit) (db : DBState)
    (e : HistoryEntry) : ((logTicketHistory ins db e).1).tickets = db.tickets := by
  cases ins <;> rfl

/-- A recipient record produced by the CC loop under an always-throwing
transport is a failure record carrying the thrown message. -/
theorem ccSends_fail (m toA subject body : String) :
    ∀ cc : List String,
      ((ccSends (failTransport m) toA subject body cc).1).all
        (fun r => !r.success && r.error == some m) = true := by
  intro cc
  induction cc with
  | nil => rfl
  | cons c rest ih =>
    by_cases hc : c = toA
    · simpa [ccSends, hc] using ih
    · simpa [ccSends, hc, safeEmailSend, failTransport] using ih

/-- Under an always-throwing transport no recipient record is a
success, so the filtered success count is zero. -/
theorem ccSends_fail_filter (m toA subject body : String) (cc : List String) :
    ((ccSends (failTransport m) toA subject body cc).1).filter
      (fun r => r.success) = [] := by
  rw [List.filter_eq_nil_iff]
  intro r hr
  have hall := ccSends_fail m toA subject body cc
  rw [List.all_eq_true] at hall
  have := hall r hr
  simp only [Bool.and_eq_true, Bool.not_eq_true'] at this
  simp [this.1]

/-- `approveTicket` with no matching row: unchanged state, 404. -/
theorem approveTicket_no_match (ins : Except String Unit) (db : DBState)
    (user : ReqUser) (ticketId now : Nat)
    (h : ∀ t ∈ db.tickets, approvalMatches t ticketId = false) :
    approveTicket ins db user ticketId now
      = (db, ApiResponse.err 404 "Ticket not found or not pending approval") := by
  have hf : db.tickets.filter (fun t => approvalMatches t ticketId) = [] := by
    rw [List.filter_eq_nil_iff]
    intro t ht
    simp [h t ht]
  simp [approveTicket, hf]

/-- `rejectTicket` with no matching row: unchanged state, 404. -/
theorem rejectTicket_no_match (ins : Except String Unit) (db : DBState)
    (user : ReqUser) (ticketId now : Nat)
    (h : ∀ t ∈ db.tickets, approvalMatches t ticketId = false) :
    rejectTicket ins db user ticketId now
      = (db, ApiResponse.err 404 "Ticket not found or not pending approval") := by
  have hf : db.tickets.filter (fun t => approvalMatches t ticketId) = [] := by
    rw [List.filter_eq_nil_iff]
    intro t ht
    simp [h t ht]
  simp [rejectTicket, hf]

/-- A ticket whose status is not Pending Approval never matches the
approval/rejection WHERE clause. -/
theorem approvalMatches_false_of_status (t : Ticket) (ticketId : Nat)
    (h : t.status ≠ "Pending Approval") :
    approvalMatches t ticketId = false := by
  simp [approvalMatches, h]

/-- A ticket whose approval flag is 0 never matches the
approval/rejection WHERE clause. -/
theorem approvalMatches_false_of_flag (t : Ticket) (ticketId : Nat)
    (h : t.requires_manager_approval = false) :
    approvalMatches t ticketId = false := by
  simp [approvalMatches, h]

end Pulse

namespace Pulse

/-- Shared: under an always-throwing transport, the dispatch success
flag is false. -/
theorem sendEmailWithCC_fail_success (m toA subject body : String)
    (ccList : List String) :
    (sendEmailWithCC (failTransport m) toA ccList subject body).success = false := by
  have hccf := ccSends_fail_filter m toA subject body ccList
  simp [sendEmailWithCC, sendEmailWithCCTraced, safeEmailSend, failTransport, hccf]

/-- Shared: the ghost trace of the CC loop is exactly one derivative
email per CC occurrence that differs from the primary recipient. -/
theorem ccSends_trace (f : Transport) (toA subject body : String) :
    ∀ cc : List String,
      (ccSends f toA subject body cc).2
        = (cc.filter (fun c => !(c == toA))).map
            (fun c => ⟨c, "[COPY] " ++ subject, ccBodyFor toA body⟩) := by
  intro cc
  induction cc with
  | nil => rfl
  | cons c rest ih =>
    by_cases hc : c = toA
    · simp [ccSends, hc, ih]
    · simp [ccSends, hc, ih]

/-- Shared: one step of the connection loop after a failed attempt that
is not the last: the backoff delay for the failed attempt number is
recorded and the loop continues with the next attempt. -/
theorem connectGo_cons_snd (outcome : Nat → Except String Unit) (base a rest : Nat)
    (m : String) (hout : outcome a = Except.error m) (hr : rest ≠ 0) :
    (connectGo outcome base a (Nat.succ rest)).2
      = base * 2 ^ (a - 1) :: (connectGo outcome base (a + 1) rest).2 := by
  simp only [connectGo, hout, if_neg hr]

/-- Shared: the outcome of the connection loop after a failed non-final
attempt is the outcome of the remaining attempts. -/
theorem connectGo_cons_fst (outcome : Nat → Except String Unit) (base a rest : Nat)
    (m : String) (hout : outcome a = Except.error m) (hr : rest ≠ 0) :
    (connectGo outcome base a (Nat.succ rest)).1
      = (connectGo outcome base (a + 1) rest).1 := by
  simp only [connectGo, hout, if_neg hr]

/-- Shared: in an all-failing run of the connection loop starting at
attempt `a ≥ 1`, the recorded backoff delays follow the exponential
formula evaluated at each failed attempt number, and there is no delay
after the final attempt. -/
theorem connectGo_all_fail_delays (outcome : Nat → Except String Unit)
    (base : Nat) (h : ∀ k, exOk (outcome k) = false) :
    ∀ (fuel a : Nat), 1 ≤ a →
      (connectGo outcome base a fuel).2
        = (List.range (fuel - 1)).map (fun i => base * 2 ^ (a - 1 + i)) := by
  intro fuel
  induction fuel with
  | zero => intro a _; rfl
  | succ rest ih =>
    intro a ha
    have hok := h a
    cases hout : outcome a with
    | ok u => rw [hout] at hok; simp [exOk] at hok
    | error m =>
      by_cases hr : rest = 0
      · subst hr
        simp [connectGo, hout]
      · obtain ⟨k, hk⟩ := Nat.exists_eq_succ_of_ne_zero hr
        rw [connectGo_cons_snd outcome base a rest m hout hr, ih (a + 1) (by omega)]
        subst hk
        rw [show Nat.succ (Nat.succ k) - 1 = Nat.succ k from rfl,
          show Nat.succ k - 1 = k from rfl,
          List.range_succ_eq_map, List.map_cons, List.map_map]
        have hhead : base * 2 ^ (a - 1 + 0) = base * 2 ^ (a - 1) := by
          rw [Nat.add_zero]
        rw [hhead]
        congr 1
        apply List.map_congr_left
        intro i _
        simp only [Function.comp]
        congr 2
        omega

/-- Shared: an all-failing run of the connection loop reports failure. -/
theorem connectGo_all_fail_err (outcome : Nat → Except String Unit)
    (base : Nat) (h : ∀ k, exOk (outcome k) = false) :
    ∀ (fuel a : Nat), exOk (connectGo outcome base a fuel).1 = false := by
  intro fuel
  induction fuel with
  | zero => intro a; rfl
  | succ rest ih =>
    intro a
    have hok := h a
    cases hout : outcome a with
    | ok u => rw [hout] at hok; simp [exOk] at hok
    | error m =>
      by_cases hr : rest = 0
      · subst hr; simp [connectGo, hout, exOk]
      · rw [connectGo_cons_fst outcome base a rest m hout hr]
        exact ih (a + 1)

end Pulse

namespace Pulse

/-- C1: for every primary recipient, CC list, subject and body, and for
every transport outcome — including a transport that throws on every
attempt — `safeEmailSend` converts the fault into a
`{success := false, error := message}` record, `sendEmailWithCC` and the
notify entry points return failure records instead of throwing, and the
response of the triggering lifecycle operation (`createTicket`) is the
same whatever the transport does. -/
theorem c1_notification_faults_never_escape :
    ∀ (m toA subject body remark newStatus : String) (ccList : List String)
      (td : TicketData) (ud : UserData) (f g : Transport)
      (ins : Except String Unit) (db : DBState) (user : ReqUser) (newId : Nat)
      (tn ti dsc ty ur : String),
      safeEmailSend (failTransport m) toA subject body
          = { success := false, error := some m }
      ∧ (sendEmailWithCC (failTransport m) toA ccList subject body).success = false
      ∧ ((sendEmailWithCC (failTransport m) toA ccList subject body).results.all
          (fun r => !r.success && r.error == some m)) = true
      ∧ (notifyTicketCreated (failTransport m) td ud).success = false
      ∧ (notifyTicketUpdated (failTransport m) td remark newStatus ud).success = false
      ∧ (notifyManagerApproval (failTransport m) td ud).success = false
      ∧ createTicket f ins db user newId tn ti dsc ty ur
          = createTicket g ins db user newId tn ti dsc ty ur := by
  intro m toA subject body remark newStatus ccList td ud f g ins db user newId tn ti dsc ty ur
  refine ⟨rfl, sendEmailWithCC_fail_success m toA subject body ccList, ?_, ?_, ?_, ?_, rfl⟩
  · have hall := ccSends_fail m toA subject body ccList
    simp only [sendEmailWithCC, sendEmailWithCCTraced, List.all_cons, hall,
      Bool.and_true]
    simp [safeEmailSend, failTransport]
  · simp [notifyTicketCreated, sendEmailWithCC_fail_success]
  · simp [notifyTicketUpdated, sendEmailWithCC_fail_success]
  · simp [notifyManagerApproval, sendEmailWithCC_fail_success]

/-- C2: the aggregated dispatch result is successful exactly when at
least one per-recipient send succeeded, the summary counts are as
recorded, and in the concrete scenario where the primary send fails
through the whole retry pipeline while the single CC recipient
succeeds, the result is `success = true` with `summary.failed = 1`. -/
theorem c2_overall_success_iff_any_recipient :
    ∀ (f : Transport) (toA subject body : String) (ccList : List String),
      ((sendEmailWithCC f toA ccList subject body).success = true
        ↔ 0 < ((sendEmailWithCC f toA ccList subject body).results.filter
            (fun r => r.success)).length)
      ∧ (sendEmailWithCC f toA ccList subject body).summary.successful
          = ((sendEmailWithCC f toA ccList subject body).results.filter
              (fun r => r.success)).length
      ∧ (sendEmailWithCC f toA ccList subject body).summary.failed
          = (sendEmailWithCC f toA ccList subject body).results.length
            - ((sendEmailWithCC f toA ccList subject body).results.filter
                (fun r => r.success)).length
      ∧ (sendEmailWithCC aliceDownTransport "alice@x.com" ["bob@x.com"] "s" "b").success
          = true
      ∧ (sendEmailWithCC aliceDownTransport "alice@x.com" ["bob@x.com"] "s" "b").summary.failed
          = 1 := by
  intro f toA subject body ccList
  refine ⟨?_, rfl, rfl, by decide, by decide⟩
  simp [sendEmailWithCC, sendEmailWithCCTraced]

end Pulse

namespace Pulse

/-- C3 counterexample: with primary a@x.com and CC list
[b@x.com, b@x.com], the fan-out performs two sends to the distinct
recipient b@x.com — not exactly one send per distinct recipient. Only
CC occurrences equal to the primary are skipped; duplicate CC entries
are not deduplicated among themselves. -/
theorem c3_counterexample_duplicate_cc :
    ¬ (((sendEmailWithCCTraced okTransport "a@x.com" ["b@x.com", "b@x.com"] "s" "b").2.filter
        (fun e => e.toAddr == "b@x.com")).length = 1)
    ∧ ((sendEmailWithCCTraced okTransport "a@x.com" ["b@x.com", "b@x.com"] "s" "b").2.filter
        (fun e => e.toAddr == "b@x.com")).length = 2 := by
  constructor
  · decide
  · decide

/-- C3 amended: the primary is sent first with the original subject and
body; each CC occurrence equal to the primary (case-sensitive exact
string comparison) is skipped and every other CC occurrence gets one
derivative send (subject prefixed with "[COPY] ", body annotated with
the primary address) — duplicate CC entries each get their own send.
In particular, for primary A and CC list [A, B] with A ≠ B, exactly one
send is made to A and one to B, the latter in derivative form. -/
theorem c3_amended_fanout_trace :
    ∀ (f : Transport) (A B subject body : String) (cc : List String),
      A ≠ B →
      (sendEmailWithCCTraced f A [A, B] subject body).2
          = [⟨A, subject, body⟩, ⟨B, "[COPY] " ++ subject, ccBodyFor A body⟩]
      ∧ (sendEmailWithCCTraced f A cc subject body).2
          = ⟨A, subject, body⟩ :: (cc.filter (fun c => !(c == A))).map
              (fun c => ⟨c, "[COPY] " ++ subject, ccBodyFor A body⟩) := by
  intro f A B subject body cc hAB
  constructor
  · have hBA : (B == A) = false := by
      simp [Ne.symm hAB]
    simp [sendEmailWithCCTraced, ccSends_trace, hBA]
  · simp [sendEmailWithCCTraced, ccSends_trace]

/-- Witness for C3 amended at a concrete input. -/
theorem c3_amended_fanout_trace_witness :
    (sendEmailWithCCTraced okTransport "a@x.com" ["a@x.com", "b@x.com"] "s" "b").2
      = [⟨"a@x.com", "s", "b"⟩,
         ⟨"b@x.com", "[COPY] " ++ "s", ccBodyFor "a@x.com" "b"⟩] :=
  (c3_amended_fanout_trace okTransport "a@x.com" "b@x.com" "s" "b" [] (by decide)).1

/-- C4 counterexample: with the default 3 connection attempts and 2s
base delay, an all-failing run sleeps 2s before attempt 2 and 4s before
attempt 3 and nothing more — the delay list is [2000, 4000], not
[2000, 4000, 8000]. -/
theorem c4_counterexample_connect_delays :
    (createSoapClientWithRetry failAllAttempts 3 2000).2 = [2000, 4000]
    ∧ (createSoapClientWithRetry failAllAttempts 3 2000).2 ≠ [2000, 4000, 8000] := by
  constructor
  · decide
  · decide

/-- C4 amended: transport-handle creation is retried up to N_connect
attempts (default 3); after failed attempt k < N_connect the loop
sleeps base_delay * 2^(k-1), so with base 2s the retry delays are 2s
before attempt 2 and 4s before attempt 3; after the final failed
attempt no further delay occurs and the failure is reported. -/
theorem c4_amended_connect_backoff :
    ∀ (outcome : Nat → Except String Unit) (base r : Nat),
      (∀ k, exOk (outcome k) = false) →
      (createSoapClientWithRetry outcome r base).2
          = (List.range (r - 1)).map (fun i => base * 2 ^ i)
      ∧ exOk (createSoapClientWithRetry outcome r base).1 = false
      ∧ (createSoapClientWithRetry outcome 3 2000).2 = [2000, 4000] := by
  intro outcome base r h
  refine ⟨?_, connectGo_all_fail_err outcome base h r 1, ?_⟩
  · have hd := connectGo_all_fail_delays outcome base h r 1 (le_refl 1)
    rw [createSoapClientWithRetry, hd]
    apply List.map_congr_left
    intro i _
    norm_num
  · have hd := connectGo_all_fail_delays outcome 2000 h 3 1 (le_refl 1)
    rw [createSoapClientWithRetry, hd]
    decide

/-- Witness for C4 amended at a concrete all-failing oracle. -/
theorem c4_amended_connect_backoff_witness :
    (createSoapClientWithRetry failAllAttempts 3 2000).2
      = (List.range 2).map (fun i => 2000 * 2 ^ i) :=
  (c4_amended_connect_backoff failAllAttempts 2000 3 (fun _ => rfl)).1

end Pulse

namespace Pulse

/-- C5: an approve or reject request on a ticket whose status is not
Pending Approval matches zero rows of the conditional UPDATE, returns
the 404 conflict error, and leaves the whole store (tickets and audit
history) unchanged — the history-logging call is never reached. -/
theorem c5_no_mutation_when_not_pending :
    ∀ (ins ins2 : Except String Unit) (db : DBState) (user user2 : ReqUser)
      (ticketId now now2 : Nat),
      (∀ t ∈ db.tickets, t.id = ticketId → t.status ≠ "Pending Approval") →
      approveTicket ins db user ticketId now
          = (db, ApiResponse.err 404 "Ticket not found or not pending approval")
      ∧ rejectTicket ins2 db user2 ticketId now2
          = (db, ApiResponse.err 404 "Ticket not found or not pending approval") := by
  intro ins ins2 db user user2 ticketId now now2 h
  have hm : ∀ t ∈ db.tickets, approvalMatches t ticketId = false := by
    intro t ht
    by_cases hid : t.id = ticketId
    · exact approvalMatches_false_of_status t ticketId (h t ht hid)
    · simp [approvalMatches, hid]
  exact ⟨approveTicket_no_match ins db user ticketId now hm,
    rejectTicket_no_match ins2 db user2 ticketId now2 hm⟩

/-- Witness for C5 at a ticket in status Open. -/
theorem c5_no_mutation_when_not_pending_witness :
    approveTicket okIns dbOpen mgrUser 1 5
        = (dbOpen, ApiResponse.err 404 "Ticket not found or not pending approval") :=
  (c5_no_mutation_when_not_pending okIns okIns dbOpen mgrUser mgrUser 1 5 5
    (by decide)).1

/-- C6: the claim that the stored status can only take the six defined
values is right as intent, but the code violates it: the remark route
applies no status validation, so a remark request with status "Banana"
on an existing Open ticket succeeds and stores the undefined status. -/
theorem c6_remark_route_writes_undefined_status :
    (remarkRoute okTransport (fun _ => okIns) dbOpen adminUser 1 "investigating" "Banana" 9).2
        = ApiResponse.ok 200 "Remark added successfully"
    ∧ ((remarkRoute okTransport (fun _ => okIns) dbOpen adminUser 1 "investigating" "Banana" 9).1.tickets.map
        (fun t => t.status)) = ["Banana"]
    ∧ definedStatuses.contains "Banana" = false := by
  refine ⟨by decide, by decide, by decide⟩

end Pulse

namespace Pulse

/-- A Pending Approval ticket with the approval flag set, plus the
store holding it. -/
def tPendingFlag : Ticket :=
  { tOpen with status := "Pending Approval", requires_manager_approval := true }

def dbPendingFlag : DBState := ⟨[tPendingFlag], []⟩

/-- C7 counterexample: a Rejected ticket is not terminal — a status
update request on it passes validation, returns 200, and moves the
stored status back to Open instead of returning Conflict. -/
theorem c7_counterexample_rejected_not_terminal :
    (updateStatusRoute (fun _ => okIns) dbRejected adminUser 1 "Open" none 9).2
        = ApiResponse.ok 200 "Ticket status updated successfully"
    ∧ ((updateStatusRoute (fun _ => okIns) dbRejected adminUser 1 "Open" none 9).1.tickets.map
        (fun t => t.status)) = ["Open"] := by
  refine ⟨by decide, by decide⟩

/-- C7 amended: after a manager rejects a Pending Approval ticket (with
the approval flag set), its status is Rejected and `rejected_at` is
set; subsequent approve and reject attempts return the conflict error
and leave the store unchanged, but `updateTicketStatus` and
`addTicketRemark` perform no status guard, so a status-update or a
remark request still succeeds on the rejected ticket and changes its
status. -/
theorem c7_amended_reject_outcome :
    ∀ (ins ins2 ins3 : Except String Unit) (insU insR : Nat → Except String Unit)
      (fT : Transport) (rem : String)
      (db : DBState) (user user2 : ReqUser) (ticketId now now2 : Nat) (t : Ticket),
      db.tickets = [t] → t.id = ticketId →
      t.requires_manager_approval = true → t.status = "Pending Approval" →
      (rejectTicket ins db user ticketId now).2
          = ApiResponse.ok 200 "Ticket rejected successfully"
      ∧ (rejectTicket ins db user ticketId now).1.tickets
          = [{ t with status := "Rejected", rejected_by := some user.id, rejected_at := some now, updated_at := some now }]
      ∧ approveTicket ins2 (rejectTicket ins db user ticketId now).1 user2 ticketId now2
          = ((rejectTicket ins db user ticketId now).1,
             ApiResponse.err 404 "Ticket not found or not pending approval")
      ∧ rejectTicket ins3 (rejectTicket ins db user ticketId now).1 user2 ticketId now2
          = ((rejectTicket ins db user ticketId now).1,
             ApiResponse.err 404 "Ticket not found or not pending approval")
      ∧ (updateTicketStatus insU (rejectTicket ins db user ticketId now).1 user2 ticketId "Open" none now2).2
          = ApiResponse.ok 200 "Ticket status updated successfully"
      ∧ ((updateTicketStatus insU (rejectTicket ins db user ticketId now).1 user2 ticketId "Open" none now2).1.tickets.map
          (fun x => x.status)) = ["Open"]
      ∧ (addTicketRemark fT insR (rejectTicket ins db user ticketId now).1 user2 ticketId rem "Open" now2).2
          = ApiResponse.ok 200 "Remark added successfully"
      ∧ ((addTicketRemark fT insR (rejectTicket ins db user ticketId now).1 user2 ticketId rem "Open" now2).1.tickets.map
          (fun x => x.status)) = ["Open"] := by
  intro ins ins2 ins3 insU insR fT rem db user user2 ticketId now now2 t hdb hid hflag hstatus
  have hmatch : approvalMatches t ticketId = true := by
    simp [approvalMatches, hid, hflag, hstatus]
  have hresp : (rejectTicket ins db user ticketId now).2
      = ApiResponse.ok 200 "Ticket rejected successfully" := by
    simp [rejectTicket, hdb, hmatch, logTicketHistory_tickets]
  have htk : (rejectTicket ins db user ticketId now).1.tickets
      = [{ t with status := "Rejected", rejected_by := some user.id, rejected_at := some now, updated_at := some now }] := by
    simp [rejectTicket, hdb, hmatch, logTicketHistory_tickets]
  have hnomatch : ∀ x ∈ (rejectTicket ins db user ticketId now).1.tickets,
      approvalMatches x ticketId = false := by
    rw [htk]
    intro x hx
    rw [List.mem_singleton] at hx
    subst hx
    apply approvalMatches_false_of_status
    simp
  have haff : ((rejectTicket ins db user ticketId now).1.tickets.filter
      (fun x => x.id == ticketId)).length = 1 := by
    rw [htk]
    simp [hid]
  refine ⟨hresp, htk,
    approveTicket_no_match ins2 _ user2 ticketId now2 hnomatch,
    rejectTicket_no_match ins3 _ user2 ticketId now2 hnomatch, ?_, ?_, ?_, ?_⟩
  · simp [updateTicketStatus, haff]
  · simp [updateTicketStatus, haff, htk, hid, logTicketHistory_tickets, updateStatusRow]
  · simp [addTicketRemark, htk, hid, logTicketHistory_tickets]
  · simp [addTicketRemark, htk, hid, logTicketHistory_tickets, remarkRow]

/-- Witness for C7 amended at a concrete pending ticket. -/
theorem c7_amended_reject_outcome_witness :
    (rejectTicket okIns dbPendingFlag mgrUser 1 5).2
        = ApiResponse.ok 200 "Ticket rejected successfully" :=
  (c7_amended_reject_outcome okIns okIns okIns (fun _ => okIns) (fun _ => okIns)
    okTransport "checked" dbPendingFlag
    mgrUser mgrUser 1 5 9 tPendingFlag rfl rfl rfl rfl).1

end Pulse

namespace Pulse

/-- C8: the initial status of a created ticket is decided solely by the
creator's role: digital_team and admin yield Pending Approval with the
approval flag set; every other role (e.g. general_user) yields Open
with the flag clear. -/
theorem c8_initial_status_by_role :
    ∀ (f : Transport) (ins : Except String Unit) (db : DBState) (user : ReqUser)
      (newId : Nat) (tn ti dsc ty ur : String),
      (createTicket f ins db user newId tn ti dsc ty ur).1.tickets
          = db.tickets ++ [insertedTicket user newId tn ti dsc ty ur]
      ∧ (insertedTicket user newId tn ti dsc ty ur).status
          = (if user.role = "digital_team" ∨ user.role = "admin"
             then "Pending Approval" else "Open")
      ∧ ((insertedTicket user newId tn ti dsc ty ur).requires_manager_approval = true
          ↔ (user.role = "digital_team" ∨ user.role = "admin"))
      ∧ (user.role = "general_user" →
          (insertedTicket user newId tn ti dsc ty ur).status = "Open"
          ∧ (insertedTicket user newId tn ti dsc ty ur).requires_manager_approval
              = false) := by
  intro f ins db user newId tn ti dsc ty ur
  refine ⟨?_, ?_, ?_, ?_⟩
  · cases ins <;> simp [createTicket, logTicketHistory]
  · by_cases h1 : user.role = "digital_team" <;>
      by_cases h2 : user.role = "admin" <;>
        simp [insertedTicket, h1, h2]
  · by_cases h1 : user.role = "digital_team" <;>
      by_cases h2 : user.role = "admin" <;>
        simp [insertedTicket, h1, h2]
  · intro h
    simp [insertedTicket, h]

/-- Witness for C8 at the general_user role. -/
theorem c8_initial_status_by_role_witness :
    (insertedTicket genUser 1 "TK1" "t" "d" "Support" "High").status = "Open"
    ∧ (insertedTicket genUser 1 "TK1" "t" "d" "Support" "High").requires_manager_approval
        = false :=
  (c8_initial_status_by_role okTransport okIns ⟨[], []⟩ genUser 1 "TK1" "t" "d"
    "Support" "High").2.2.2 rfl

/-- C9 counterexample: when the audit insert fails, `logTicketHistory`
swallows the failure after exactly one attempt — it is never retried,
so the claimed best-effort retry of at least one more attempt does not
happen. -/
theorem c9_counterexample_no_audit_retry :
    logTicketHistory (Except.error "connection lost") dbOpen sampleEntry
        = (dbOpen, 1)
    ∧ ¬ 2 ≤ (logTicketHistory (Except.error "connection lost") dbOpen sampleEntry).2 := by
  refine ⟨by decide, by decide⟩

/-- C9 amended: a failed audit-history write never rolls back the
ticket mutation — `createTicket` still inserts the row and reports 201
success while the history table stays unchanged — but the audit insert
is attempted exactly once with no retry. -/
theorem c9_amended_audit_failure_swallowed_no_retry :
    ∀ (f : Transport) (m : String) (db : DBState) (user : ReqUser) (newId : Nat)
      (tn ti dsc ty ur : String) (e : HistoryEntry),
      (createTicket f (Except.error m) db user newId tn ti dsc ty ur).2
          = ApiResponse.ok 201 "Ticket created successfully"
      ∧ (createTicket f (Except.error m) db user newId tn ti dsc ty ur).1.history
          = db.history
      ∧ (createTicket f (Except.error m) db user newId tn ti dsc ty ur).1.tickets
          = db.tickets ++ [insertedTicket user newId tn ti dsc ty ur]
      ∧ logTicketHistory (Except.error m) db e = (db, 1) := by
  intro f m db user newId tn ti dsc ty ur e
  refine ⟨?_, ?_, ?_, rfl⟩ <;> simp [createTicket, logTicketHistory]

/-- C10: approval and rejection carry the undocumented extra
precondition `requires_manager_approval = 1`: whenever no ticket with
the flag set matches, both return the 404 conflict error and mutate
nothing, even when the status is Pending Approval — and such tickets
are reachable, because a general_user ticket (flag 0) can be moved to
Pending Approval through the status-update route, after which approve
and reject still refuse it. -/
theorem c10_approval_requires_flag :
    (∀ (ins : Except String Unit) (db : DBState) (user : ReqUser)
      (ticketId now : Nat),
      (∀ t ∈ db.tickets, t.requires_manager_approval = false) →
      approveTicket ins db user ticketId now
          = (db, ApiResponse.err 404 "Ticket not found or not pending approval")
      ∧ rejectTicket ins db user ticketId now
          = (db, ApiResponse.err 404 "Ticket not found or not pending approval"))
    ∧ ((((updateStatusRoute (fun _ => okIns)
          (createTicket okTransport okIns ⟨[], []⟩ genUser 1 "TK1" "t" "d" "Support" "High").1
          adminUser 1 "Pending Approval" none 5).1).tickets.map
            (fun t => t.status)) = ["Pending Approval"]
      ∧ (((updateStatusRoute (fun _ => okIns)
          (createTicket okTransport okIns ⟨[], []⟩ genUser 1 "TK1" "t" "d" "Support" "High").1
          adminUser 1 "Pending Approval" none 5).1).tickets.map
            (fun t => t.requires_manager_approval)) = [false]
      ∧ (approveTicket okIns
          (updateStatusRoute (fun _ => okIns)
            (createTicket okTransport okIns ⟨[], []⟩ genUser 1 "TK1" "t" "d" "Support" "High").1
            adminUser 1 "Pending Approval" none 5).1
          mgrUser 1 9).2
          = ApiResponse.err 404 "Ticket not found or not pending approval"
      ∧ (rejectTicket okIns
          (updateStatusRoute (fun _ => okIns)
            (createTicket okTransport okIns ⟨[], []⟩ genUser 1 "TK1" "t" "d" "Support" "High").1
            adminUser 1 "Pending Approval" none 5).1
          mgrUser 1 9).2
          = ApiResponse.err 404 "Ticket not found or not pending approval") := by
  constructor
  · intro ins db user ticketId now h
    have hm : ∀ t ∈ db.tickets, approvalMatches t ticketId = false := fun t ht =>
      approvalMatches_false_of_flag t ticketId (h t ht)
    exact ⟨approveTicket_no_match ins db user ticketId now hm,
      rejectTicket_no_match ins db user ticketId now hm⟩
  · refine ⟨by decide, by decide, by decide, by decide⟩

/-- Witness for C10 at a Pending Approval ticket whose flag is 0. -/
theorem c10_approval_requires_flag_witness :
    approveTicket okIns dbPendingNoFlag mgrUser 1 4
        = (dbPendingNoFlag,
           ApiResponse.err 404 "Ticket not found or not pending approval") :=
  (c10_approval_requires_flag.1 okIns dbPendingNoFlag mgrUser 1 4 (by decide)).1

end Pulse
